import Mathlib

/-!
Verification of the FleetGuardian bus fleet maintenance tracker
(`FleetGuardian_Main-Shayan_Shome.c`).

Shallow embedding conventions:
* C `float` fields are modelled as exact rationals (`ℚ`). Claims that are
  robust to float rounding (bounds, clamps, comparisons of exactly
  representable values) are settled against the exact-rational reading;
  where a claimed value sits on a float rounding boundary, the pipeline is
  additionally modelled with per-operation IEEE-754 binary32 rounding
  (`float32_round`, round to nearest, ties to even, `FLT_EVAL_METHOD = 0`).
* C `int` is modelled as `Int` (no overflow is exercised by the claims).
* C `char` buffers (`bus_code[20]`, `driver_name[50]`) are modelled as
  `List Char`.
* C integer division/remainder truncate toward zero, so the embedding uses
  `Int.tdiv` / `Int.tmod`.
* A C cast `(int) x` from a float truncates toward zero; on a rational this
  is the floor for nonnegative values and the ceiling for negative ones.
* The local flag variables of `update_maintenance_status` are lifted to
  top-level definitions with the same names, and the function itself is the
  pure map from the old record and the reference date to the updated record
  (the C function mutates exactly the four derived fields in place).
-/

/-- `Status` enum of the source: OK = 0, DUE_SOON = 1, OVERDUE = 2. -/
inductive Status where
  | ok
  | dueSoon
  | overdue
deriving DecidableEq, Repr

/-- `Date` struct of the source: `int day, month, year`. -/
structure Date where
  day : Int
  month : Int
  year : Int
deriving DecidableEq, Repr

/-- `Bus` struct of the source (same field order and names). -/
structure Bus where
  bus_code : List Char
  driver_name : List Char
  bus_no : Int
  last_service : Date
  next_due : Date
  current_mileage : ℚ
  last_service_mileage : ℚ
  service_interval_km : ℚ
  service_interval_days : Int
  service_history_count : Int
  status : Status
  km_left : ℚ
  health_score : Int
  avg_daily_km : ℚ
  fuel_efficiency : ℚ
deriving DecidableEq, Repr

/-- `DUE_SOON_KM` constant of the source (`#define DUE_SOON_KM 500`). -/
def DUE_SOON_KM : ℚ := 500

/-- C cast `(int) q` of an exact rational: truncation toward zero. -/
def trunc_to_int (q : ℚ) : Int :=
  if q < 0 then ⌈q⌉ else ⌊q⌋

/-- `is_valid_date` of the source: year > 0, month in 1..12, day in 1..31
(no month-length or leap-year validation). -/
def is_valid_date (d : Date) : Bool :=
  !(d.year ≤ 0 || d.month < 1 || d.month > 12 || d.day < 1 || d.day > 31)

/-- `date_to_days` of the source: `year*365 + month*30 + day`. -/
def date_to_days (d : Date) : Int :=
  d.year * 365 + d.month * 30 + d.day

/-- `days_to_date` of the source; C `/` and `%` truncate toward zero, hence
`Int.tdiv` / `Int.tmod`. -/
def days_to_date (total : Int) : Date :=
  let year := Int.tdiv total 365
  let rem := Int.tmod total 365
  let month0 := Int.tdiv rem 30
  let month := if month0 = 0 then 1 else month0
  let day0 := Int.tmod rem 30
  let day := if day0 = 0 then 1 else day0
  { day := day, month := month, year := year }

/-- `add_days` of the source. -/
def add_days (d : Date) (days : Int) : Date :=
  days_to_date (date_to_days d + days)

/-- Local `due_mileage` of `update_maintenance_status`:
`last_service_mileage + service_interval_km`. -/
def due_mileage (b : Bus) : ℚ :=
  b.last_service_mileage + b.service_interval_km

/-- Local flag `mileage_overdue` of `update_maintenance_status`. -/
def mileage_overdue (b : Bus) : Bool :=
  decide (b.current_mileage ≥ due_mileage b)

/-- Local flag `mileage_due_soon` of `update_maintenance_status`; the
`km_left` it reads is `due_mileage - current_mileage`. -/
def mileage_due_soon (b : Bus) : Bool :=
  !mileage_overdue b && decide (due_mileage b - b.current_mileage ≤ DUE_SOON_KM)

/-- Condition of the date-based branch of `update_maintenance_status`:
`service_interval_days > 0` and both dates structurally valid. -/
def date_check_active (b : Bus) (today : Date) : Bool :=
  decide (b.service_interval_days > 0) &&
  is_valid_date b.last_service && is_valid_date today

/-- Local flag `date_overdue` of `update_maintenance_status`. -/
def date_overdue (b : Bus) (today : Date) : Bool :=
  date_check_active b today &&
  decide (date_to_days today - date_to_days b.last_service ≥ b.service_interval_days)

/-- `next_due` as written by `update_maintenance_status`: set inside the
date branch, zeroed otherwise. -/
def computed_next_due (b : Bus) (today : Date) : Date :=
  if date_check_active b today then add_days b.last_service b.service_interval_days
  else { day := 0, month := 0, year := 0 }

/-- `status` as written by `update_maintenance_status`. -/
def computed_status (b : Bus) (today : Date) : Status :=
  if mileage_overdue b || date_overdue b today then Status.overdue
  else if mileage_due_soon b then Status.dueSoon
  else Status.ok

/-- `health_score` as written by `update_maintenance_status`: when
`service_interval_km > 0`, the usage ratio is clamped to `[0, 1.5]`, the
score `(1.5 - ratio) / 1.5 * 100` is cast to int (truncation) and clamped
to `[0, 100]`; otherwise the score is the neutral 50. This is the
exact-rational idealization of the C float pipeline; it is adequate for the
clamp/bound claims (which hold whatever each operation rounds to), while
`computed_health_score_float` below refines it with per-operation binary32
rounding for claims about exact score values. -/
def computed_health_score (b : Bus) : Int :=
  if b.service_interval_km > 0 then
    let r0 := (b.current_mileage - b.last_service_mileage) / b.service_interval_km
    let r1 := if r0 < 0 then 0 else r0
    let r2 := if r1 > 3/2 then 3/2 else r1
    let h0 := trunc_to_int ((3/2 - r2) / (3/2) * 100)
    let h1 := if h0 < 0 then 0 else h0
    if h1 > 100 then 100 else h1
  else 50

/-- `update_maintenance_status` of the source as a pure function: the C
function writes exactly `km_left`, `next_due`, `status` and `health_score`
back onto the record. -/
def update_maintenance_status (b : Bus) (today : Date) : Bus :=
  { b with km_left := due_mileage b - b.current_mileage
           next_due := computed_next_due b today
           status := computed_status b today
           health_score := computed_health_score b }

/-- Round a rational to the nearest integer, ties to even. -/
def rne (s : ℚ) : Int :=
  if s - ⌊s⌋ < 1/2 then ⌊s⌋
  else if s - ⌊s⌋ > 1/2 then ⌊s⌋ + 1
  else if 2 ∣ ⌊s⌋ then ⌊s⌋ else ⌊s⌋ + 1

/-- IEEE-754 binary32 rounding of an exact rational: round to nearest with
ties to even at a 24-bit significand (normal range only — the health-score
pipeline never leaves it, so overflow and subnormals are not modelled). -/
def float32_round (q : ℚ) : ℚ :=
  if q = 0 then 0
  else if 0 < q then
    (rne (q / 2 ^ (Int.log 2 q - 23)) : ℚ) * 2 ^ (Int.log 2 q - 23)
  else
    -((rne (-q / 2 ^ (Int.log 2 (-q) - 23)) : ℚ) * 2 ^ (Int.log 2 (-q) - 23))

theorem log2_eq_of_between {q : ℚ} {e : Int}
    (h1 : (2:ℚ) ^ e ≤ q) (h2 : q < (2:ℚ) ^ (e + 1)) : Int.log 2 q = e := by
  have h0 : 0 < q := lt_of_lt_of_le (by positivity) h1
  have ha : e ≤ Int.log 2 q := by
    rw [← Int.zpow_le_iff_le_log (by norm_num) h0]
    exact_mod_cast h1
  have hb : Int.log 2 q < e + 1 := by
    rw [← Int.lt_zpow_iff_log_lt (by norm_num) h0]
    exact_mod_cast h2
  omega

theorem float32_round_eval {q : ℚ} {e : Int}
    (h1 : (2:ℚ) ^ e ≤ q) (h2 : q < (2:ℚ) ^ (e + 1)) :
    float32_round q = (rne (q / 2 ^ (e - 23)) : ℚ) * 2 ^ (e - 23) := by
  have h0 : 0 < q := lt_of_lt_of_le (by positivity) h1
  rw [float32_round, if_neg h0.ne', if_pos h0, log2_eq_of_between h1 h2]

/-- The health-score block of `update_maintenance_status` with every C
float operation rounded to binary32: `used = current - last`, the ratio
`used / interval`, and each step of `(1.5f - ratio) / 1.5f * 100.0f` pass
through `float32_round` (`FLT_EVAL_METHOD = 0`; with wider intermediates
the truncated results below are the same). The clamp comparisons involve
no rounding, and the constants 0, 1.5 and 100 are exactly representable. -/
def computed_health_score_float (b : Bus) : Int :=
  if b.service_interval_km > 0 then
    let used := float32_round (b.current_mileage - b.last_service_mileage)
    let r0 := float32_round (used / b.service_interval_km)
    let r1 := if r0 < 0 then 0 else r0
    let r2 := if r1 > 3/2 then 3/2 else r1
    let h0 := trunc_to_int
      (float32_round (float32_round ((float32_round (3/2 - r2)) / (3/2)) * 100))
    let h1 := if h0 < 0 then 0 else h0
    if h1 > 100 then 100 else h1
  else 50

/-- The scenario record of the spec (claim C1) with the stated
`serviceIntervalKm = 10000`, parameterized by the current mileage. -/
def scenarioBus (cm : ℚ) : Bus :=
  { bus_code := ['B', '7']
    driver_name := ['D']
    bus_no := 7
    last_service := { day := 1, month := 1, year := 2024 }
    next_due := { day := 0, month := 0, year := 0 }
    current_mileage := cm
    last_service_mileage := 9000
    service_interval_km := 10000
    service_interval_days := 0
    service_history_count := 0
    status := Status.ok
    km_left := 0
    health_score := 100
    avg_daily_km := 0
    fuel_efficiency := 0 }

/-- The same scenario record with `serviceIntervalKm = 1000`, the value the
spec's own ratio computations (0.2 and 0.6) correspond to. -/
def scenarioBus1000 (cm : ℚ) : Bus :=
  { scenarioBus cm with service_interval_km := 1000 }

/-- A fixed reference date for the scenario evaluations (the record has
`serviceIntervalDays = 0`, so the date branch is inactive). -/
def scenarioToday : Date := { day := 15, month := 6, year := 2024 }

/-- C1 (counterexample): with the record exactly as the claim states it
(`lastServiceMileage = 9000`, `serviceIntervalKm = 10000`,
`serviceIntervalDays = 0`), evaluation does NOT produce the claimed outputs:
at `currentMileage = 9200` the code yields `kmLeft = 9800` (not 800). -/
theorem claim_C1_counterexample :
    ¬ ((update_maintenance_status (scenarioBus 9200) scenarioToday).km_left = 800 ∧
       (update_maintenance_status (scenarioBus 9200) scenarioToday).status = Status.ok ∧
       (update_maintenance_status (scenarioBus 9200) scenarioToday).health_score = 87 ∧
       (update_maintenance_status (scenarioBus 9600) scenarioToday).km_left = 400 ∧
       (update_maintenance_status (scenarioBus 9600) scenarioToday).status = Status.dueSoon ∧
       (update_maintenance_status (scenarioBus 9600) scenarioToday).health_score = 60) := by
  intro h
  have hk := h.1
  simp only [update_maintenance_status, due_mileage, scenarioBus] at hk
  norm_num at hk

/-- C1 (amended): the spec's scenario numbers correspond to
`serviceIntervalKm = 1000`. For the record
`{lastServiceMileage = 9000, serviceIntervalKm = 1000, serviceIntervalDays = 0}`:
with `currentMileage = 9200` evaluation yields `kmLeft = 800`, status OK and
`healthScore = 86` (the float pipeline lands at `86.66667…`, truncated by
the int cast; it does not round to 87), and with `currentMileage = 9600` it
yields `kmLeft = 400`, status DUE_SOON (400 ≤ 500) and `healthScore = 59`:
the float ratio `600.0f / 1000.0f` rounds up to `0.600000024`, so
`(1.5f - ratio) / 1.5f * 100.0f` evaluates to `59.999996…` and truncates to
59, not 60. The mileage quantities at these inputs (9000, 1000, 9200, 9600
and their sums and differences) are exactly representable in binary32, so
the exact-rational `km_left` and status agree with the float program; the
health score, where rounding matters, is evaluated through
`computed_health_score_float`. -/
theorem claim_C1_amended :
    (update_maintenance_status (scenarioBus1000 9200) scenarioToday).km_left = 800 ∧
    (update_maintenance_status (scenarioBus1000 9200) scenarioToday).status = Status.ok ∧
    computed_health_score_float (scenarioBus1000 9200) = 86 ∧
    (update_maintenance_status (scenarioBus1000 9600) scenarioToday).km_left = 400 ∧
    (update_maintenance_status (scenarioBus1000 9600) scenarioToday).status = Status.dueSoon ∧
    computed_health_score_float (scenarioBus1000 9600) = 59 := by
  refine ⟨?_, ?_, ?_, ?_, ?_, ?_⟩
  · simp only [update_maintenance_status, due_mileage, scenarioBus1000, scenarioBus]
    norm_num
  · simp only [update_maintenance_status, computed_status, mileage_overdue,
      mileage_due_soon, date_overdue, date_check_active, due_mileage,
      is_valid_date, DUE_SOON_KM, scenarioBus1000, scenarioBus, scenarioToday]
    norm_num
  · have hused : float32_round ((9200:ℚ) - 9000) = 200 := by
      rw [show ((9200:ℚ) - 9000) = 200 by norm_num]
      rw [float32_round_eval (e := 7) (by norm_num) (by norm_num)]
      norm_num [rne]
    have hr : float32_round ((200:ℚ) / 1000) = 13421773 / 67108864 := by
      rw [float32_round_eval (e := -3) (by norm_num) (by norm_num)]
      norm_num [rne]
    have ha : float32_round (3/2 - (13421773:ℚ) / 67108864) = 10905190 / 8388608 := by
      rw [float32_round_eval (e := 0) (by norm_num) (by norm_num)]
      norm_num [rne]
    have hb : float32_round ((10905190:ℚ) / 8388608 / (3/2)) = 14540253 / 16777216 := by
      rw [float32_round_eval (e := -1) (by norm_num) (by norm_num)]
      norm_num [rne]
    have hc : float32_round ((14540253:ℚ) / 16777216 * 100) = 11359573 / 131072 := by
      rw [float32_round_eval (e := 6) (by norm_num) (by norm_num)]
      norm_num [rne]
    have hd : trunc_to_int ((11359573:ℚ) / 131072) = 86 := by
      rw [trunc_to_int, if_neg (by norm_num)]
      norm_num
    simp only [computed_health_score_float, scenarioBus1000, scenarioBus]
    rw [if_pos (by norm_num : (1000:ℚ) > 0), hused, hr,
      if_neg (by norm_num : ¬((13421773:ℚ) / 67108864 < 0)),
      if_neg (by norm_num : ¬((13421773:ℚ) / 67108864 > 3/2)),
      ha, hb, hc, hd,
      if_neg (by norm_num : ¬((86:Int) < 0)),
      if_neg (by norm_num : ¬((86:Int) > 100))]
  · simp only [update_maintenance_status, due_mileage, scenarioBus1000, scenarioBus]
    norm_num
  · simp only [update_maintenance_status, computed_status, mileage_overdue,
      mileage_due_soon, date_overdue, date_check_active, due_mileage,
      is_valid_date, DUE_SOON_KM, scenarioBus1000, scenarioBus, scenarioToday]
    norm_num
  · have hused : float32_round ((9600:ℚ) - 9000) = 600 := by
      rw [show ((9600:ℚ) - 9000) = 600 by norm_num]
      rw [float32_round_eval (e := 9) (by norm_num) (by norm_num)]
      norm_num [rne]
    have hr : float32_round ((600:ℚ) / 1000) = 10066330 / 16777216 := by
      rw [float32_round_eval (e := -1) (by norm_num) (by norm_num)]
      norm_num [rne]
    have ha : float32_round (3/2 - (10066330:ℚ) / 16777216) = 15099494 / 16777216 := by
      rw [float32_round_eval (e := -1) (by norm_num) (by norm_num)]
      norm_num [rne]
    have hb : float32_round ((15099494:ℚ) / 16777216 / (3/2)) = 10066329 / 16777216 := by
      rw [float32_round_eval (e := -1) (by norm_num) (by norm_num)]
      norm_num [rne]
    have hc : float32_round ((10066329:ℚ) / 16777216 * 100) = 15728639 / 262144 := by
      rw [float32_round_eval (e := 5) (by norm_num) (by norm_num)]
      norm_num [rne]
    have hd : trunc_to_int ((15728639:ℚ) / 262144) = 59 := by
      rw [trunc_to_int, if_neg (by norm_num)]
      norm_num
    simp only [computed_health_score_float, scenarioBus1000, scenarioBus]
    rw [if_pos (by norm_num : (1000:ℚ) > 0), hused, hr,
      if_neg (by norm_num : ¬((10066330:ℚ) / 16777216 < 0)),
      if_neg (by norm_num : ¬((10066330:ℚ) / 16777216 > 3/2)),
      ha, hb, hc, hd,
      if_neg (by norm_num : ¬((59:Int) < 0)),
      if_neg (by norm_num : ¬((59:Int) > 100))]

/-- C3: whenever `currentMileage >= lastServiceMileage + serviceIntervalKm`,
evaluation sets the status to OVERDUE, regardless of the date fields of the
record and of the reference date. -/
theorem claim_C3_mileage_overdue_status (b : Bus) (today : Date)
    (h : b.current_mileage ≥ b.last_service_mileage + b.service_interval_km) :
    (update_maintenance_status b today).status = Status.overdue := by
  have hmo : mileage_overdue b = true := by
    simp only [mileage_overdue, due_mileage, decide_eq_true_eq]
    exact h
  simp [update_maintenance_status, computed_status, hmo]

/-- Witness for C3: the scenario record at `currentMileage = 20000`
(past the due mileage 19000) is classified OVERDUE. -/
theorem claim_C3_witness :
    (update_maintenance_status (scenarioBus 20000) scenarioToday).status = Status.overdue :=
  claim_C3_mileage_overdue_status (scenarioBus 20000) scenarioToday
    (by simp only [scenarioBus]; norm_num)

/-- A record whose stored `lastServiceDate` is the all-zero sentinel (a
structurally invalid date) while `serviceIntervalDays` is positive. -/
def invalidLastServiceBus : Bus :=
  { scenarioBus 0 with last_service := { day := 0, month := 0, year := 0 }
                       service_interval_days := 10 }

/-- C4 (counterexample): the claim quantifies over every record, but the
code only raises the date-based OVERDUE when both dates are structurally
valid. For a record with the invalid sentinel `lastServiceDate = 0/0/0`,
`serviceIntervalDays = 10 > 0` and a day-count difference far above the
interval, evaluation still reports OK, not OVERDUE. -/
theorem claim_C4_counterexample :
    invalidLastServiceBus.service_interval_days > 0 ∧
    date_to_days scenarioToday - date_to_days invalidLastServiceBus.last_service ≥
      invalidLastServiceBus.service_interval_days ∧
    (update_maintenance_status invalidLastServiceBus scenarioToday).status ≠ Status.overdue := by
  refine ⟨by decide, by decide, ?_⟩
  have hmo : mileage_overdue invalidLastServiceBus = false := by
    simp only [mileage_overdue, due_mileage, invalidLastServiceBus, scenarioBus,
      decide_eq_false_iff_not]
    norm_num
  have hms : mileage_due_soon invalidLastServiceBus = false := by
    simp only [mileage_due_soon, hmo, due_mileage, invalidLastServiceBus, scenarioBus,
      DUE_SOON_KM, Bool.not_false, Bool.true_and, decide_eq_false_iff_not]
    norm_num
  have hdo : date_overdue invalidLastServiceBus scenarioToday = false := by
    simp [date_overdue, date_check_active, invalidLastServiceBus, scenarioBus, is_valid_date]
  simp [update_maintenance_status, computed_status, hmo, hms, hdo]

/-- C4 (amended): the date-based OVERDUE rule holds under the validity
condition the code (and §4.2 step 5 of the spec) imposes: whenever
`serviceIntervalDays > 0`, both `lastServiceDate` and the reference date are
structurally valid, and `dayCount(referenceDate) - dayCount(lastServiceDate)
>= serviceIntervalDays`, evaluation sets status OVERDUE, even if mileage is
not overdue. -/
theorem claim_C4_amended (b : Bus) (today : Date)
    (hdays : b.service_interval_days > 0)
    (hv1 : is_valid_date b.last_service = true)
    (hv2 : is_valid_date today = true)
    (hdiff : date_to_days today - date_to_days b.last_service ≥ b.service_interval_days) :
    (update_maintenance_status b today).status = Status.overdue := by
  have hdo : date_overdue b today = true := by
    simp [date_overdue, date_check_active, hv1, hv2, hdays, hdiff]
  simp [update_maintenance_status, computed_status, hdo]

/-- A record with a valid last-service date, a 30-day interval, and mileage
comfortably below the due mileage. -/
def dateOverdueBus : Bus :=
  { scenarioBus 0 with service_interval_days := 30 }

/-- Witness for C4 (amended): with last service 1/1/2024, a 30-day interval
and reference date 15/6/2024 (day-count difference 164 ≥ 30), the record is
OVERDUE although its mileage is far from due. -/
theorem claim_C4_witness :
    (update_maintenance_status dateOverdueBus scenarioToday).status = Status.overdue :=
  claim_C4_amended dateOverdueBus scenarioToday (by decide) (by decide) (by decide) (by decide)

/-- C5: after evaluation the health score lies in `[0, 100]`, and it equals
exactly 50 whenever `serviceIntervalKm = 0`. -/
theorem claim_C5_health_bounds (b : Bus) (today : Date) :
    0 ≤ (update_maintenance_status b today).health_score ∧
    (update_maintenance_status b today).health_score ≤ 100 ∧
    (b.service_interval_km = 0 → (update_maintenance_status b today).health_score = 50) := by
  refine ⟨?_, ?_, ?_⟩
  · simp only [update_maintenance_status, computed_health_score]
    split_ifs <;> omega
  · simp only [update_maintenance_status, computed_health_score]
    split_ifs <;> omega
  · intro hz
    simp only [update_maintenance_status, computed_health_score, hz]
    norm_num

/-- A record with `serviceIntervalKm = 0`. -/
def noIntervalBus : Bus :=
  { scenarioBus 0 with service_interval_km := 0 }

/-- Witness for C5: at `serviceIntervalKm = 0` the evaluated health score is
within bounds and equals the neutral 50. -/
theorem claim_C5_witness :
    0 ≤ (update_maintenance_status noIntervalBus scenarioToday).health_score ∧
    (update_maintenance_status noIntervalBus scenarioToday).health_score ≤ 100 ∧
    (update_maintenance_status noIntervalBus scenarioToday).health_score = 50 :=
  ⟨(claim_C5_health_bounds noIntervalBus scenarioToday).1,
   (claim_C5_health_bounds noIntervalBus scenarioToday).2.1,
   (claim_C5_health_bounds noIntervalBus scenarioToday).2.2 rfl⟩

/-- C9 (frame property): evaluation writes only the four derived fields;
every other field of the record is unchanged. -/
theorem claim_C9_frame (b : Bus) (today : Date) :
    (update_maintenance_status b today).bus_code = b.bus_code ∧
    (update_maintenance_status b today).driver_name = b.driver_name ∧
    (update_maintenance_status b today).bus_no = b.bus_no ∧
    (update_maintenance_status b today).last_service = b.last_service ∧
    (update_maintenance_status b today).current_mileage = b.current_mileage ∧
    (update_maintenance_status b today).last_service_mileage = b.last_service_mileage ∧
    (update_maintenance_status b today).service_interval_km = b.service_interval_km ∧
    (update_maintenance_status b today).service_interval_days = b.service_interval_days ∧
    (update_maintenance_status b today).service_history_count = b.service_history_count ∧
    (update_maintenance_status b today).avg_daily_km = b.avg_daily_km ∧
    (update_maintenance_status b today).fuel_efficiency = b.fuel_efficiency :=
  ⟨rfl, rfl, rfl, rfl, rfl, rfl, rfl, rfl, rfl, rfl, rfl⟩

/-- The witness date of claim C10: 31 January 2000. -/
def c10_date : Date := { day := 31, month := 1, year := 2000 }

/-- C10: the simplified day-count conversion is not invertible — the
structurally valid date 31/01/2000 maps to day count 730061, which converts
back to 01/02/2000; and after any evaluation the computed `nextDueDate`
never has a day component above 29 (the unset sentinel has day 0, and
`days_to_date` produces a day in `[1, 29]`). -/
theorem claim_C10_day_count_not_invertible :
    (is_valid_date c10_date = true ∧
     days_to_date (date_to_days c10_date) ≠ c10_date ∧
     days_to_date (date_to_days c10_date) = { day := 1, month := 2, year := 2000 }) ∧
    ∀ (b : Bus) (today : Date), (update_maintenance_status b today).next_due.day ≤ 29 := by
  refine ⟨⟨by decide, by decide, by decide⟩, ?_⟩
  intro b today
  simp only [update_maintenance_status, computed_next_due]
  split_ifs with h
  · -- the date branch is active: the interval is positive and the stored
    -- last-service date is structurally valid
    simp only [date_check_active, Bool.and_eq_true, decide_eq_true_eq] at h
    obtain ⟨⟨hdays, hv⟩, -⟩ := h
    simp only [is_valid_date, Bool.not_eq_true', Bool.or_eq_false_iff,
      decide_eq_false_iff_not, not_lt, not_le] at hv
    obtain ⟨⟨⟨⟨hy, hm1⟩, hm2⟩, hd1⟩, hd2⟩ := hv
    simp only [add_days, days_to_date, date_to_days]
    set total : Int := b.last_service.year * 365 + b.last_service.month * 30 +
      b.last_service.day + b.service_interval_days with htot
    have htot0 : 0 ≤ total := by omega
    have h1 : 0 ≤ Int.tmod total 365 := Int.tmod_nonneg _ htot0
    have h2 : 0 ≤ Int.tmod (Int.tmod total 365) 30 := Int.tmod_nonneg _ h1
    have h3 : Int.tmod (Int.tmod total 365) 30 < 30 :=
      Int.tmod_lt_of_pos _ (by norm_num)
    split_ifs <;> omega
  · norm_num

/-- C library `toNat` fact used below: a codepoint below 256 survives the
`Char.ofNat` round trip. -/
theorem toNat_ofNat_small {n : Nat} (h : n < 256) : (Char.ofNat n).toNat = n := by
  have hv : n.isValidChar := Or.inl (by omega)
  simp [Char.ofNat, hv, Char.ofNatAux, Char.toNat, UInt32.toNat]

/-- C `tolower` in the default locale, as the integer comparison value the
source feeds to `!=` inside `str_ieq`: ASCII upper-case letters map down,
everything else is unchanged. -/
def tolower (c : Char) : Nat :=
  if 65 ≤ c.toNat ∧ c.toNat ≤ 90 then c.toNat + 32 else c.toNat

/-- C `(char) toupper(*s)` in the default locale: ASCII lower-case letters
map up, everything else is unchanged. -/
def toupper (c : Char) : Char :=
  if 97 ≤ c.toNat ∧ c.toNat ≤ 122 then Char.ofNat (c.toNat - 32) else c

/-- `str_ieq` of the source: equal ignoring case; both strings must end
together. -/
def str_ieq : List Char → List Char → Bool
  | [], [] => true
  | a :: as, b :: bs => tolower a == tolower b && str_ieq as bs
  | _, _ => false

/-- `to_upper_str` of the source. -/
def to_upper_str (s : List Char) : List Char :=
  s.map toupper

theorem tolower_toupper (c : Char) : tolower (toupper c) = tolower c := by
  unfold tolower toupper
  by_cases h : 97 ≤ c.toNat ∧ c.toNat ≤ 122
  · rw [if_pos h]
    have h1 : (Char.ofNat (c.toNat - 32)).toNat = c.toNat - 32 :=
      toNat_ofNat_small (by omega)
    rw [h1, if_pos (by omega), if_neg (by omega)]
    omega
  · rw [if_neg h]

/-- Upper-casing the right operand does not change case-insensitive
equality. -/
theorem str_ieq_to_upper_str (a b : List Char) :
    str_ieq a (to_upper_str b) = str_ieq a b := by
  induction a generalizing b with
  | nil => cases b <;> simp [str_ieq, to_upper_str]
  | cons x xs ih =>
    cases b with
    | nil => simp [str_ieq, to_upper_str]
    | cons y ys =>
      simp only [to_upper_str, List.map_cons, str_ieq, tolower_toupper]
      have := ih ys
      simp only [to_upper_str] at this
      rw [this]

/-- `bus_code_exists` of the source: scan the fleet, skipping the excluded
index (the exclude argument counts down as the scan advances; callers pass
`-1` when adding, so nothing is skipped). -/
def bus_code_exists : List Bus → List Char → Int → Bool
  | [], _, _ => false
  | b :: rest, code, exclude =>
    (decide (exclude ≠ 0) && str_ieq b.bus_code code) ||
      bus_code_exists rest code (exclude - 1)

/-- `bus_no_exists` of the source, same exclusion pattern, exact match. -/
def bus_no_exists : List Bus → Int → Int → Bool
  | [], _, _ => false
  | b :: rest, no, exclude =>
    (decide (exclude ≠ 0) && decide (b.bus_no = no)) ||
      bus_no_exists rest no (exclude - 1)

theorem bus_code_exists_neg (code : List Char) :
    ∀ (fleet : List Bus) (e : Int), e < 0 →
      (bus_code_exists fleet code e =
        fleet.any fun c => str_ieq c.bus_code code) := by
  intro fleet
  induction fleet with
  | nil => intro e _; rfl
  | cons b rest ih =>
    intro e he
    have hne : e ≠ 0 := by omega
    simp [bus_code_exists, hne, ih (e - 1) (by omega)]

theorem bus_no_exists_neg (no : Int) :
    ∀ (fleet : List Bus) (e : Int), e < 0 →
      (bus_no_exists fleet no e = fleet.any fun c => decide (c.bus_no = no)) := by
  intro fleet
  induction fleet with
  | nil => intro e _; rfl
  | cons b rest ih =>
    intro e he
    have hne : e ≠ 0 := by omega
    simp [bus_no_exists, hne, ih (e - 1) (by omega)]

/-- Outcome of an insert attempt (the C `add_bus` re-prompts on a duplicate
code or number; the record store contract reports the rejection instead). -/
inductive AddResult where
  | ok
  | duplicateCode
  | duplicateNumber
deriving DecidableEq, Repr

/-- `add_bus` of the source as the record-store insert: the submitted code
is normalized to upper case, checked case-insensitively against the whole
fleet (`exclude = -1`), then the number is checked; on success the record is
appended with its derived fields initialized to the neutral defaults
(`next_due` zeroed, `km_left = 0`, status OK, health 100) exactly as the C
function sets them. On a duplicate the fleet is returned unchanged. -/
def add_bus (fleet : List Bus) (b : Bus) : AddResult × List Bus :=
  let code := to_upper_str b.bus_code
  if bus_code_exists fleet code (-1) then (AddResult.duplicateCode, fleet)
  else if bus_no_exists fleet b.bus_no (-1) then (AddResult.duplicateNumber, fleet)
  else (AddResult.ok,
    fleet ++ [{ b with bus_code := code
                       next_due := { day := 0, month := 0, year := 0 }
                       km_left := 0
                       status := Status.ok
                       health_score := 100 }])

/-- C6: insert is rejected with DuplicateCode when the submitted code is a
case-variant (the source's `str_ieq`) of an existing code, leaving the fleet
unchanged; with a fresh code it is rejected with DuplicateNumber when the
submitted number already exists, leaving the fleet unchanged; and with both
identifiers fresh it succeeds, appending exactly the new record (code
upper-cased, derived fields at their neutral defaults). The code check runs
first, so the DuplicateNumber case is stated for a non-duplicate code. -/
theorem claim_C6_insert_uniqueness (fleet : List Bus) (b : Bus) :
    ((∃ c ∈ fleet, str_ieq c.bus_code b.bus_code = true) →
      add_bus fleet b = (AddResult.duplicateCode, fleet)) ∧
    ((∀ c ∈ fleet, str_ieq c.bus_code b.bus_code = false) →
     (∃ c ∈ fleet, c.bus_no = b.bus_no) →
      add_bus fleet b = (AddResult.duplicateNumber, fleet)) ∧
    ((∀ c ∈ fleet, str_ieq c.bus_code b.bus_code = false) →
     (∀ c ∈ fleet, c.bus_no ≠ b.bus_no) →
      add_bus fleet b = (AddResult.ok,
        fleet ++ [{ b with bus_code := to_upper_str b.bus_code
                           next_due := { day := 0, month := 0, year := 0 }
                           km_left := 0
                           status := Status.ok
                           health_score := 100 }])) := by
  have hcode : bus_code_exists fleet (to_upper_str b.bus_code) (-1) =
      fleet.any fun c => str_ieq c.bus_code b.bus_code := by
    rw [bus_code_exists_neg _ fleet (-1) (by norm_num)]
    exact congrArg fleet.any
      (funext fun c => str_ieq_to_upper_str c.bus_code b.bus_code)
  have hno : bus_no_exists fleet b.bus_no (-1) =
      fleet.any fun c => decide (c.bus_no = b.bus_no) :=
    bus_no_exists_neg _ fleet (-1) (by norm_num)
  refine ⟨?_, ?_, ?_⟩
  · intro hdup
    have : bus_code_exists fleet (to_upper_str b.bus_code) (-1) = true := by
      rw [hcode, List.any_eq_true]
      obtain ⟨c, hc, hs⟩ := hdup
      exact ⟨c, hc, hs⟩
    simp [add_bus, this]
  · intro hfresh hdup
    have h1 : bus_code_exists fleet (to_upper_str b.bus_code) (-1) = false := by
      rw [hcode, List.any_eq_false]
      intro c hc
      simp [hfresh c hc]
    have h2 : bus_no_exists fleet b.bus_no (-1) = true := by
      rw [hno, List.any_eq_true]
      obtain ⟨c, hc, hn⟩ := hdup
      exact ⟨c, hc, by simpa using hn⟩
    simp [add_bus, h1, h2]
  · intro hfresh hfreshno
    have h1 : bus_code_exists fleet (to_upper_str b.bus_code) (-1) = false := by
      rw [hcode, List.any_eq_false]
      intro c hc
      simp [hfresh c hc]
    have h2 : bus_no_exists fleet b.bus_no (-1) = false := by
      rw [hno, List.any_eq_false]
      intro c hc
      simpa using hfreshno c hc
    simp [add_bus, h1, h2]

/-- The existing record of the C6 scenario: code `CHD-101A`, number 7. -/
def chd101aBus : Bus :=
  { scenarioBus 0 with bus_code := ['C', 'H', 'D', '-', '1', '0', '1', 'A'] }

/-- Submission with a lower-case variant of the existing code. -/
def lowerCaseSubmission : Bus :=
  { scenarioBus 0 with bus_code := ['c', 'h', 'd', '-', '1', '0', '1', 'a']
                       bus_no := 8 }

/-- Submission with a fresh code but the already-used number 7. -/
def dupNumberSubmission : Bus :=
  { scenarioBus 0 with bus_code := ['Z', 'Z', '9'], bus_no := 7 }

/-- Submission with a fresh code and a fresh number. -/
def freshSubmission : Bus :=
  { scenarioBus 0 with bus_code := ['Z', 'Z', '9'], bus_no := 8 }

/-- Witness for C6: against the fleet `[CHD-101A / 7]`, submitting
`chd-101a` is rejected as a duplicate code with the fleet unchanged,
submitting number 7 under a fresh code is rejected as a duplicate number
with the fleet unchanged, and a fresh code and number are accepted. -/
theorem claim_C6_witness :
    add_bus [chd101aBus] lowerCaseSubmission = (AddResult.duplicateCode, [chd101aBus]) ∧
    add_bus [chd101aBus] dupNumberSubmission = (AddResult.duplicateNumber, [chd101aBus]) ∧
    (add_bus [chd101aBus] freshSubmission).1 = AddResult.ok := by
  refine ⟨?_, ?_, ?_⟩
  · exact (claim_C6_insert_uniqueness [chd101aBus] lowerCaseSubmission).1
      ⟨chd101aBus, List.mem_singleton_self _, by decide⟩
  · exact (claim_C6_insert_uniqueness [chd101aBus] dupNumberSubmission).2.1
      (fun c hc => by rw [List.mem_singleton.mp hc]; decide)
      ⟨chd101aBus, List.mem_singleton_self _, by decide⟩
  · rw [(claim_C6_insert_uniqueness [chd101aBus] freshSubmission).2.2
      (fun c hc => by rw [List.mem_singleton.mp hc]; decide)
      (fun c hc => by rw [List.mem_singleton.mp hc]; decide)]

/-- `find_bus_index` of the source: linear scan, first match on `bus_no`,
`none` for the C sentinel `-1`. -/
def find_bus_index : List Bus → Int → Option Nat
  | [], _ => none
  | b :: rest, no =>
    if b.bus_no = no then some 0
    else (find_bus_index rest no).map (· + 1)

/-- `delete_bus` of the source as the record-store delete: locate the first
record with the given number; if absent report NotFound (`none`), otherwise
remove exactly that element (the C shift-left loop over
`fleet[i] = fleet[i+1]` followed by the count decrement is
`take i ++ drop (i+1)`). -/
def delete_bus (fleet : List Bus) (no : Int) : Option (List Bus) :=
  match find_bus_index fleet no with
  | none => none
  | some i => some (fleet.take i ++ fleet.drop (i + 1))

theorem find_bus_index_eq_none (fleet : List Bus) (no : Int)
    (h : ∀ c ∈ fleet, c.bus_no ≠ no) : find_bus_index fleet no = none := by
  induction fleet with
  | nil => rfl
  | cons b rest ih =>
    have hb : b.bus_no ≠ no := h b (List.mem_cons_self _ _)
    have hrest := ih fun c hc => h c (List.mem_cons_of_mem _ hc)
    simp [find_bus_index, hb, hrest]

theorem find_bus_index_first_match (no : Int) :
    ∀ (fleet : List Bus) (i : Nat), find_bus_index fleet no = some i →
      (∃ b, fleet[i]? = some b ∧ b.bus_no = no) ∧
      (∀ j, j < i → ∀ b, fleet[j]? = some b → b.bus_no ≠ no) := by
  intro fleet
  induction fleet with
  | nil => intro i h; simp [find_bus_index] at h
  | cons b rest ih =>
    intro i h
    by_cases hb : b.bus_no = no
    · simp only [find_bus_index, if_pos hb] at h
      obtain rfl : (0 : Nat) = i := Option.some.inj h
      exact ⟨⟨b, by simp, hb⟩, fun j hj => by omega⟩
    · simp only [find_bus_index, if_neg hb, Option.map_eq_some'] at h
      obtain ⟨i', hi', rfl⟩ := h
      obtain ⟨⟨c, hc, hcno⟩, hfirst⟩ := ih i' hi'
      refine ⟨⟨c, by simpa using hc, hcno⟩, ?_⟩
      intro j hj d hd
      match j with
      | 0 =>
        simp only [List.getElem?_cons_zero, Option.some.injEq] at hd
        rw [← hd]
        exact hb
      | j' + 1 =>
        simp only [List.getElem?_cons_succ] at hd
        exact hfirst j' (by omega) d hd

/-- C7: deleting by number fails (NotFound) and leaves the fleet alone when
no record carries the number; otherwise it removes exactly the first record
with that number, and the result is `take i ++ drop (i+1)` — the remaining
records keep their exact field values and relative order, with subsequent
elements shifted left by one. -/
theorem claim_C7_delete_by_number (fleet : List Bus) (no : Int) :
    ((∀ c ∈ fleet, c.bus_no ≠ no) → delete_bus fleet no = none) ∧
    (∀ i, find_bus_index fleet no = some i →
      (∃ b, fleet[i]? = some b ∧ b.bus_no = no) ∧
      (∀ j, j < i → ∀ b, fleet[j]? = some b → b.bus_no ≠ no) ∧
      delete_bus fleet no = some (fleet.take i ++ fleet.drop (i + 1))) := by
  refine ⟨?_, ?_⟩
  · intro h
    simp [delete_bus, find_bus_index_eq_none fleet no h]
  · intro i hi
    obtain ⟨hhit, hfirst⟩ := find_bus_index_first_match no fleet i hi
    exact ⟨hhit, hfirst, by simp [delete_bus, hi]⟩

/-- A record distinguished only by its number, for the C7 witness fleet. -/
def numberedBus (n : Int) : Bus :=
  { scenarioBus 0 with bus_no := n }

/-- Witness for C7: in the fleet `[no 1, no 2, no 3]`, deleting number 5
reports NotFound, and deleting number 2 removes exactly the middle record,
leaving `[no 1, no 3]` in order. -/
theorem claim_C7_witness :
    delete_bus [numberedBus 1, numberedBus 2, numberedBus 3] 5 = none ∧
    delete_bus [numberedBus 1, numberedBus 2, numberedBus 3] 2 =
      some [numberedBus 1, numberedBus 3] := by
  refine ⟨?_, ?_⟩
  · exact (claim_C7_delete_by_number [numberedBus 1, numberedBus 2, numberedBus 3] 5).1
      (fun c hc => by
        rcases List.mem_cons.mp hc with rfl | hc'
        · decide
        rcases List.mem_cons.mp hc' with rfl | hc''
        · decide
        rw [List.mem_singleton.mp hc'']
        decide)
  · have h := ((claim_C7_delete_by_number
      [numberedBus 1, numberedBus 2, numberedBus 3] 2).2 1 (by rfl)).2.2
    exact h

/-- One pipe-separated field of a persisted record line. The `%.2f` /
`%.2f`-then-`%f` printf/scanf pair for float fields is modelled as exact
2-decimal rounding on the write side; the character-level rendering of
numbers is the external stream plumbing. -/
inductive WireField where
  | str : List Char → WireField
  | int : Int → WireField
  | dec : ℚ → WireField
deriving DecidableEq, Repr

/-- `%.2f` formatting of a float field: the value that survives a save/load
of the decimal text, i.e. the argument rounded to 2 decimal places. -/
def round2 (q : ℚ) : ℚ :=
  (⌊q * 100 + 1/2⌋ : ℚ) / 100

/-- The ordinal the source prints for a status (`%d` of the enum). -/
def statusToInt : Status → Int
  | Status.ok => 0
  | Status.dueSoon => 1
  | Status.overdue => 2

/-- The C cast `(Status) status_int` applied on load. Only 0, 1 and 2 are
ever produced by `save_fleet_to_file`; other values are out of range for
the enum, and the model sends them to OK (= 0). -/
def statusOfInt (n : Int) : Status :=
  if n = 1 then Status.dueSoon else if n = 2 then Status.overdue else Status.ok

/-- A string field survives the pipe-separated `%19[^|]`/`%49[^|]` framing:
nonempty (scanf's `%[^|]` fails on an empty match), within the buffer
bound, and free of the `|` separator and of newlines. -/
def wf_chars (s : List Char) (maxLen : Nat) : Bool :=
  decide (1 ≤ s.length) && decide (s.length ≤ maxLen) &&
    s.all fun c => decide (c ≠ '|') && decide (c ≠ '\n')

/-- C `isspace` characters (default locale): space, `\t`, `\n`, vertical
tab, form feed, `\r`. -/
def c_isspace (c : Char) : Bool :=
  c = ' ' || c = '\t' || c = '\n' || c = '\x0b' || c = '\x0c' || c = '\r'

/-- The bus-code field opens a record line, right after the `\n` directive
that ends the count line's `%d\n` (or the previous record's `%f\n`). A
whitespace directive in a scanf format consumes all following whitespace,
so leading whitespace of the code would be stripped before `%19[^|]` runs:
for the code to survive a round trip exactly it must also not begin with
whitespace. -/
def wf_code (s : List Char) (maxLen : Nat) : Bool :=
  wf_chars s maxLen &&
    match s with
    | [] => false
    | c :: _ => !c_isspace c

/-- Both string buffers of a record survive the line framing (and the
code additionally survives the whitespace skip that precedes it). -/
def wf_bus (b : Bus) : Bool :=
  wf_code b.bus_code 19 && wf_chars b.driver_name 49

/-- One record line as written by `save_fleet_to_file` (the 19 `fprintf`
fields, in order, floats at 2 decimal places). -/
def save_bus_line (b : Bus) : List WireField :=
  [WireField.str b.bus_code, WireField.str b.driver_name, WireField.int b.bus_no,
   WireField.int b.last_service.day, WireField.int b.last_service.month,
   WireField.int b.last_service.year,
   WireField.int b.next_due.day, WireField.int b.next_due.month,
   WireField.int b.next_due.year,
   WireField.dec (round2 b.current_mileage), WireField.dec (round2 b.last_service_mileage),
   WireField.dec (round2 b.service_interval_km), WireField.int b.service_interval_days,
   WireField.int b.service_history_count, WireField.int (statusToInt b.status),
   WireField.dec (round2 b.km_left), WireField.int b.health_score,
   WireField.dec (round2 b.avg_daily_km), WireField.dec (round2 b.fuel_efficiency)]

/-- `save_fleet_to_file` of the source: the leading count line followed by
one line per record. -/
def save_fleet_to_file (fleet : List Bus) : Int × List (List WireField) :=
  ((fleet.length : Int), fleet.map save_bus_line)

/-- The `fscanf` of one record line in `load_fleet_from_file`: succeeds
(all 19 conversions) only on a complete, well-framed line. The `\n`
directive that precedes the line (from `%d\n` or the previous `%f\n`)
consumes all leading whitespace of the code field before `%19[^|]` reads
it, so the stored code is the stripped one; a code left empty by the
stripping (or empty, overlong, or containing the separator) is a matching
failure. The `%49[^|]` for the driver name follows a `|` literal, which
skips nothing. -/
def parse_bus_line (l : List WireField) : Option Bus :=
  match l with
  | [WireField.str code0, WireField.str name, WireField.int no,
     WireField.int lsd, WireField.int lsm, WireField.int lsy,
     WireField.int ndd, WireField.int ndm, WireField.int ndy,
     WireField.dec cm, WireField.dec lsmil, WireField.dec sik,
     WireField.int sid, WireField.int shc, WireField.int st,
     WireField.dec kml, WireField.int hs, WireField.dec adk, WireField.dec fe] =>
    let code := code0.dropWhile c_isspace
    if wf_chars code 19 && wf_chars name 49 then
      some { bus_code := code, driver_name := name, bus_no := no
             last_service := { day := lsd, month := lsm, year := lsy }
             next_due := { day := ndd, month := ndm, year := ndy }
             current_mileage := cm, last_service_mileage := lsmil
             service_interval_km := sik, service_interval_days := sid
             service_history_count := shc, status := statusOfInt st
             km_left := kml, health_score := hs
             avg_daily_km := adk, fuel_efficiency := fe }
    else none
  | _ => none

/-- The record-reading loop of `load_fleet_from_file`: `n` slots are
filled; a slot whose line parses receives the parsed record, and a slot
whose line fails to parse (or is missing) keeps the indeterminate memory
it had — modelled by the `garbage` parameter. The C loop emits a warning
on a failed parse but still advances `i`, so the slot stays in the fleet
and the final count is `n` regardless. The model is line-oriented and thus
optimistic: the real stream does not resynchronize after a failed
`fscanf` (it is left mid-line, and the corrupt text can be absorbed into
the following record's code field), but even under this optimistic reading
the corrupt slot is retained, which is what the corruption claim tests. -/
def load_aux (garbage : Bus) : Nat → List (List WireField) → List Bus
  | 0, _ => []
  | n + 1, [] => garbage :: load_aux garbage n []
  | n + 1, l :: ls => ((parse_bus_line l).getD garbage) :: load_aux garbage n ls

/-- `load_fleet_from_file` of the source: a missing/invalid/nonpositive
count line yields an empty fleet; otherwise exactly `n` records are read
as by `load_aux`. -/
def load_fleet_from_file (garbage : Bus) (n : Int)
    (lines : List (List WireField)) : List Bus :=
  if n ≤ 0 then [] else load_aux garbage n.toNat lines

theorem round2_intCast (k : Int) : round2 (k : ℚ) = (k : ℚ) := by
  unfold round2
  have h : (k : ℚ) * 100 + 1/2 = ((100 * k : Int) : ℚ) + 1/2 := by push_cast; ring
  rw [h, Int.floor_int_add]
  have h2 : ⌊(1/2 : ℚ)⌋ = 0 := by norm_num
  rw [h2]
  push_cast
  ring

theorem round2_idem (q : ℚ) : round2 (round2 q) = round2 q := by
  conv_lhs => rw [round2]
  rw [round2]
  have h : (⌊q * 100 + 1/2⌋ : ℚ) / 100 * 100 + 1/2 = (⌊q * 100 + 1/2⌋ : ℚ) + 1/2 := by
    rw [div_mul_cancel₀ _ (by norm_num : (100 : ℚ) ≠ 0)]
  rw [h, Int.floor_int_add]
  have h2 : ⌊(1/2 : ℚ)⌋ = 0 := by norm_num
  rw [h2, add_zero]

theorem statusOfInt_statusToInt (s : Status) : statusOfInt (statusToInt s) = s := by
  cases s <;> rfl

/-- The record as it comes back from a save/load cycle: decimal fields
rounded to 2 places, everything else untouched. -/
def bus_round_trip (b : Bus) : Bus :=
  { b with current_mileage := round2 b.current_mileage
           last_service_mileage := round2 b.last_service_mileage
           service_interval_km := round2 b.service_interval_km
           km_left := round2 b.km_left
           avg_daily_km := round2 b.avg_daily_km
           fuel_efficiency := round2 b.fuel_efficiency }

theorem dropWhile_of_wf_code {s : List Char} {n : Nat} (h : wf_code s n = true) :
    s.dropWhile c_isspace = s ∧ wf_chars s n = true := by
  cases s with
  | nil => simp [wf_code, wf_chars] at h
  | cons c cs =>
    simp only [wf_code, Bool.and_eq_true, Bool.not_eq_true'] at h
    obtain ⟨hwf, hhead⟩ := h
    refine ⟨?_, hwf⟩
    simp [List.dropWhile, hhead]

theorem parse_save_bus_line (b : Bus) (h : wf_bus b = true) :
    parse_bus_line (save_bus_line b) = some (bus_round_trip b) := by
  simp only [wf_bus, Bool.and_eq_true] at h
  obtain ⟨hc, hn⟩ := h
  obtain ⟨hdrop, hwfc⟩ := dropWhile_of_wf_code hc
  simp only [save_bus_line, parse_bus_line, hdrop, hwfc, hn, Bool.and_self, if_true,
    statusOfInt_statusToInt, bus_round_trip]

theorem load_save_aux (g : Bus) :
    ∀ fleet : List Bus, (∀ b ∈ fleet, wf_bus b = true) →
      load_aux g fleet.length (fleet.map save_bus_line) = fleet.map bus_round_trip := by
  intro fleet
  induction fleet with
  | nil => intro _; rfl
  | cons b rest ih =>
    intro h
    simp only [List.map_cons, List.length_cons, load_aux]
    rw [parse_save_bus_line b (h b (List.mem_cons_self _ _))]
    simp only [Option.getD_some]
    rw [ih fun c hc => h c (List.mem_cons_of_mem _ hc)]

/-- C8: loading back a saved fleet of well-framed records (nonempty string
fields without the `|` separator or newlines, within the buffer bounds,
and a bus code that does not begin with whitespace — leading whitespace of
the line's first field is consumed by the loader's `\n` format directive)
yields a fleet of the same length whose records agree with the originals on
every string, integer, date and status field — including the
un-recomputed derived fields `status`, `kmLeft`, `healthScore` and
`nextDueDate` — and agree to 2 decimal places on every decimal field. -/
theorem claim_C8_round_trip (g : Bus) (fleet : List Bus)
    (h : ∀ b ∈ fleet, wf_bus b = true) :
    (load_fleet_from_file g (save_fleet_to_file fleet).1 (save_fleet_to_file fleet).2).length
        = fleet.length ∧
    ∀ (i : Nat) (b b' : Bus), fleet[i]? = some b →
      (load_fleet_from_file g (save_fleet_to_file fleet).1
        (save_fleet_to_file fleet).2)[i]? = some b' →
      b'.bus_code = b.bus_code ∧
      b'.driver_name = b.driver_name ∧
      b'.bus_no = b.bus_no ∧
      b'.last_service = b.last_service ∧
      b'.next_due = b.next_due ∧
      b'.service_interval_days = b.service_interval_days ∧
      b'.service_history_count = b.service_history_count ∧
      b'.status = b.status ∧
      b'.health_score = b.health_score ∧
      round2 b'.current_mileage = round2 b.current_mileage ∧
      round2 b'.last_service_mileage = round2 b.last_service_mileage ∧
      round2 b'.service_interval_km = round2 b.service_interval_km ∧
      round2 b'.km_left = round2 b.km_left ∧
      round2 b'.avg_daily_km = round2 b.avg_daily_km ∧
      round2 b'.fuel_efficiency = round2 b.fuel_efficiency := by
  have hmap : load_fleet_from_file g (save_fleet_to_file fleet).1
      (save_fleet_to_file fleet).2 = fleet.map bus_round_trip := by
    unfold load_fleet_from_file save_fleet_to_file
    cases fleet with
    | nil => simp
    | cons b rest =>
      rw [if_neg (by simp), Int.toNat_ofNat]
      exact load_save_aux g (b :: rest) h
  refine ⟨by rw [hmap, List.length_map], ?_⟩
  intro i b b' hb hb'
  rw [hmap, List.getElem?_map, hb, Option.map_some'] at hb'
  obtain rfl : bus_round_trip b = b' := Option.some.inj hb'
  exact ⟨rfl, rfl, rfl, rfl, rfl, rfl, rfl, rfl, rfl,
    round2_idem _, round2_idem _, round2_idem _,
    round2_idem _, round2_idem _, round2_idem _⟩

/-- Witness for C8: the one-record fleet `[CHD-101A / 7]` survives a
save/load cycle with its length intact. -/
theorem claim_C8_witness :
    (load_fleet_from_file (numberedBus 0) (save_fleet_to_file [chd101aBus]).1
      (save_fleet_to_file [chd101aBus]).2).length = 1 :=
  (claim_C8_round_trip (numberedBus 0) [chd101aBus]
    (fun b hb => by rw [List.mem_singleton.mp hb]; decide)).1

/-- A persisted line that fails to parse into a complete record (a single
field instead of 19). -/
def corruptLine : List WireField := [WireField.str ['X']]

/-- C2 (code behavior at the failing input): loading a file with count 2
whose first line is corrupt and whose second line is a valid record does
NOT skip the corrupt line — the first slot keeps its indeterminate
(garbage) contents, and the loaded fleet still has length 2. This holds
for every garbage value `g` the slot may contain. -/
theorem claim_C2_corrupt_line_not_skipped (g : Bus) :
    parse_bus_line corruptLine = none ∧
    load_fleet_from_file g 2 [corruptLine, save_bus_line chd101aBus] = [g, chd101aBus] := by
  have h0 : round2 (0 : ℚ) = 0 := by
    have := round2_intCast 0
    push_cast at this
    exact this
  have h9000 : round2 (9000 : ℚ) = 9000 := by
    have := round2_intCast 9000
    push_cast at this
    exact this
  have h10000 : round2 (10000 : ℚ) = 10000 := by
    have := round2_intCast 10000
    push_cast at this
    exact this
  have hrt : bus_round_trip chd101aBus = chd101aBus := by
    simp [bus_round_trip, chd101aBus, scenarioBus, h0, h9000, h10000]
  refine ⟨rfl, ?_⟩
  unfold load_fleet_from_file
  rw [if_neg (by norm_num)]
  calc load_aux g (2 : Int).toNat [corruptLine, save_bus_line chd101aBus]
      = (parse_bus_line corruptLine).getD g ::
          (parse_bus_line (save_bus_line chd101aBus)).getD g :: [] := rfl
    _ = [g, chd101aBus] := by
        rw [parse_save_bus_line chd101aBus (by decide), hrt]
        rfl
